import Mathlib

/-!
Shallow embedding of `src/main.rs` from the `grok-wgpu` repository: a minimal
wgpu/winit application that renders an indexed pentagon (three triangles in a
triangle-list) each frame.  External library objects (surface, device, queue,
pipeline) are modelled as opaque handles; calls into the graphics API are
modelled as explicit effect lists so that claims about "what the code asks the
API to do" become statements about those lists.
-/

namespace GrokWgpu

/-- `winit::dpi::PhysicalSize<u32>`. -/
structure PhysicalSize where
  width : Nat
  height : Nat
deriving DecidableEq, Repr

/-- `wgpu::PresentMode`; the code only ever uses `Fifo`. -/
inductive PresentMode
  | Immediate
  | Mailbox
  | Fifo
deriving DecidableEq, Repr

/-- `wgpu::TextureUsages`; the code only ever uses `RENDER_ATTACHMENT`. -/
inductive TextureUsages
  | RENDER_ATTACHMENT
  | other (bits : Nat)
deriving DecidableEq, Repr

/-- `wgpu::IndexFormat`. -/
inductive IndexFormat
  | Uint16
  | Uint32
deriving DecidableEq, Repr

/-- `wgpu::SurfaceConfiguration` with the fields the code sets in `State::new`.
The pixel format is negotiated externally (`surface.get_preferred_format`), so
it is an opaque `Nat`. -/
structure SurfaceConfiguration where
  usage : TextureUsages
  format : Nat
  width : Nat
  height : Nat
  present_mode : PresentMode
deriving DecidableEq, Repr

/-- `wgpu::Color`, with the four `f64` channels modelled as exact rationals
(the code only ever passes decimal literals, never computes with them). -/
structure Color where
  r : Rat
  g : Rat
  b : Rat
  a : Rat
deriving DecidableEq, Repr

/-- The `Vertex` struct: a 3-float position and a 3-float color, with the
`f32` components modelled as exact rationals (only literals appear). -/
structure Vertex where
  position : Rat × Rat × Rat
  color : Rat × Rat × Rat
deriving DecidableEq, Repr

/-- The `VERTICES` constant: the five pentagon corners A–E. -/
def VERTICES : List Vertex :=
  [ { position := (-0.0868241,   0.49240386, 0.0), color := (0.5, 0.0, 0.5) },
    { position := (-0.49513406,  0.06958647, 0.0), color := (0.5, 0.0, 0.5) },
    { position := (-0.21918549, -0.44939706, 0.0), color := (0.5, 0.0, 0.5) },
    { position := ( 0.35966998, -0.3473291,  0.0), color := (0.5, 0.0, 0.5) },
    { position := ( 0.44147372,  0.2347359,  0.0), color := (0.5, 0.0, 0.5) } ]

/-- The `INDICES` constant (`&[u16]`): nine triangle indices plus one padding
entry, added because wgpu requires buffer sizes aligned to 4 bytes. -/
def INDICES : List Nat :=
  [ 0, 1, 4,
    1, 2, 4,
    2, 3, 4,
    0 ]

/-- Commands recorded into a render pass / command encoder. -/
inductive RenderCommand
  | beginRenderPass (clearColor : Color)
  | setPipeline (pipeline : Nat)
  | setVertexBuffer (slot : Nat) (contents : List Vertex)
  | setIndexBuffer (contents : List Nat) (format : IndexFormat)
  | drawIndexed (firstIndex lastIndex : Nat) (baseVertex : Int)
      (firstInstance lastInstance : Nat)
  | draw (firstVertex lastVertex firstInstance lastInstance : Nat)
deriving DecidableEq, Repr

/-- A render pass under construction: its clear color plus the commands
recorded so far (`set_pipeline`, `set_vertex_buffer`, ...). -/
structure RenderPass where
  clearColor : Color
  commands : List RenderCommand
deriving DecidableEq, Repr

/-- `RenderPass::set_pipeline`. -/
def RenderPass.set_pipeline (rp : RenderPass) (pipeline : Nat) : RenderPass :=
  { rp with commands := rp.commands ++ [RenderCommand.setPipeline pipeline] }

/-- `RenderPass::set_vertex_buffer`. -/
def RenderPass.set_vertex_buffer (rp : RenderPass) (slot : Nat)
    (contents : List Vertex) : RenderPass :=
  { rp with commands := rp.commands ++ [RenderCommand.setVertexBuffer slot contents] }

/-- `RenderPass::set_index_buffer`. -/
def RenderPass.set_index_buffer (rp : RenderPass) (contents : List Nat)
    (format : IndexFormat) : RenderPass :=
  { rp with commands := rp.commands ++ [RenderCommand.setIndexBuffer contents format] }

/-- `RenderPass::draw_indexed`, taking the index range, base vertex and
instance range positionally. -/
def RenderPass.draw_indexed (rp : RenderPass) (firstIndex lastIndex : Nat)
    (baseVertex : Int) (firstInstance lastInstance : Nat) : RenderPass :=
  { rp with commands := rp.commands ++
      [RenderCommand.drawIndexed firstIndex lastIndex baseVertex firstInstance lastInstance] }

/-- A command encoder: the commands recorded so far. -/
structure CommandEncoder where
  commands : List RenderCommand
deriving DecidableEq, Repr

/-- Dropping the render pass at the end of the block flushes it into the
encoder: the pass begin (with its clear operation) followed by its commands. -/
def CommandEncoder.endRenderPass (enc : CommandEncoder) (rp : RenderPass) :
    CommandEncoder :=
  { enc with commands :=
      enc.commands ++ RenderCommand.beginRenderPass rp.clearColor :: rp.commands }

/-- `CommandEncoder::finish`: the finished command buffer. -/
def CommandEncoder.finish (enc : CommandEncoder) : List RenderCommand :=
  enc.commands

/-- `wgpu::SurfaceError`. -/
inductive SurfaceError
  | Timeout
  | Outdated
  | Lost
  | OutOfMemory
deriving DecidableEq, Repr

/-- `winit::event::ElementState`. -/
inductive ElementState
  | Pressed
  | Released
deriving DecidableEq, Repr

/-- `winit::event::VirtualKeyCode`, with `Escape` distinguished and every
other key collapsed into an opaque code. -/
inductive VirtualKeyCode
  | Escape
  | otherKey (code : Nat)
deriving DecidableEq, Repr

/-- `winit::event::ModifiersState`: the four modifier flags. -/
structure ModifiersState where
  shift : Bool
  ctrl : Bool
  alt : Bool
  logo : Bool
deriving DecidableEq, Repr

/-- The modifier state with no modifier held. -/
def ModifiersState.empty : ModifiersState :=
  { shift := false, ctrl := false, alt := false, logo := false }

/-- `winit::event::KeyboardInput`.  The source's match arm binds `state` and
`virtual_keycode` and ignores the remaining fields (scancode, modifiers)
with `..`. -/
structure KeyboardInput where
  scancode : Nat
  state : ElementState
  virtual_keycode : Option VirtualKeyCode
  modifiers : ModifiersState
deriving DecidableEq, Repr

/-- The `winit::event::WindowEvent` variants the loop distinguishes; all
others are collapsed into `otherWindowEvent`. -/
inductive WindowEvent
  | Resized (physical_size : PhysicalSize)
  | ScaleFactorChanged (scale_factor : Rat) (new_inner_size : PhysicalSize)
  | CloseRequested
  | KeyboardInput (device_id : Nat) (input : KeyboardInput) (is_synthetic : Bool)
  | otherWindowEvent
deriving DecidableEq, Repr

/-- The `winit::event::Event` variants the loop distinguishes; all others are
collapsed into `otherEvent`. -/
inductive Event
  | RedrawRequested (window_id : Nat)
  | MainEventsCleared
  | WindowEvent (window_id : Nat) (event : WindowEvent)
  | otherEvent
deriving DecidableEq, Repr

/-- `winit::event_loop::ControlFlow`. -/
inductive ControlFlow
  | Poll
  | Wait
  | Exit
deriving DecidableEq, Repr

/-- Effects `State::resize` can have on the surface API. -/
inductive SurfaceEffect
  | configure (device : Nat) (config : SurfaceConfiguration)
deriving DecidableEq, Repr

/-- Effects `State::render` can have on the queue / surface texture. -/
inductive QueueEffect
  | submit (commandBuffer : List RenderCommand)
  | present
deriving DecidableEq, Repr

/-- The `State` struct.  `surface`, `device`, `queue` and `render_pipeline`
are opaque library handles; the two buffers are modelled by their uploaded
contents (`VERTICES` / `INDICES` cast to bytes in the source). -/
structure State where
  surface : Nat
  device : Nat
  queue : Nat
  config : SurfaceConfiguration
  size : PhysicalSize
  render_pipeline : Nat
  vertex_buffer : List Vertex
  index_buffer : List Nat
  num_indices : Nat
deriving DecidableEq, Repr

/-- `State::new`.  The externally-negotiated pieces (window size, preferred
surface format, and the adapter/device/queue/pipeline handles) are inputs;
the function records how the code initialises the configuration and buffers:
usage `RENDER_ATTACHMENT`, the preferred format, the window's dimensions,
`Fifo` presentation, the static geometry, and `num_indices = INDICES.len()`. -/
def State.new (size : PhysicalSize) (preferredFormat : Nat)
    (surfaceHandle deviceHandle queueHandle pipelineHandle : Nat) : State :=
  { surface := surfaceHandle
    device := deviceHandle
    queue := queueHandle
    config :=
      { usage := TextureUsages.RENDER_ATTACHMENT
        format := preferredFormat
        width := size.width
        height := size.height
        present_mode := PresentMode.Fifo }
    size := size
    render_pipeline := pipelineHandle
    vertex_buffer := VERTICES
    index_buffer := INDICES
    num_indices := INDICES.length }

/-- `State::resize`: if both dimensions are strictly positive, store the new
size, update the configuration's width and height, and reconfigure the
surface; otherwise do nothing.  Returns the new state together with the
surface calls made. -/
def State.resize (s : State) (new_size : PhysicalSize) :
    State × List SurfaceEffect :=
  if new_size.width > 0 && new_size.height > 0 then
    let s2 : State :=
      { s with
        size := new_size
        config := { s.config with width := new_size.width, height := new_size.height } }
    (s2, [SurfaceEffect.configure s2.device s2.config])
  else
    (s, [])

/-- `State::input`: always returns `false` (event not handled), touching
nothing. -/
def State.input (s : State) (_event : WindowEvent) : State × Bool :=
  (s, false)

/-- `State::update`: a no-op placeholder. -/
def State.update (s : State) : State :=
  s

/-- `State::render`.  Acquiring the surface texture is external, so its
outcome is an input: on failure the error propagates with no effects; on
success the code records one render pass (clear to (0.1, 0.2, 0.3, 1.0), set
pipeline, set vertex buffer, set index buffer as `Uint16`, one indexed draw
of `0..num_indices` with instance range `0..1`), submits the one finished
command buffer, and presents. -/
def State.render (s : State) (acquire : Except SurfaceError Unit) :
    State × Except SurfaceError Unit × List QueueEffect :=
  match acquire with
  | Except.error e => (s, Except.error e, [])
  | Except.ok _ =>
    let encoder : CommandEncoder := { commands := [] }
    let render_pass : RenderPass :=
      { clearColor := { r := 0.1, g := 0.2, b := 0.3, a := 1.0 }, commands := [] }
    let render_pass := render_pass.set_pipeline s.render_pipeline
    let render_pass := render_pass.set_vertex_buffer 0 s.vertex_buffer
    let render_pass := render_pass.set_index_buffer s.index_buffer IndexFormat.Uint16
    let render_pass := render_pass.draw_indexed 0 s.num_indices 0 0 1
    let encoder := encoder.endRenderPass render_pass
    (s, Except.ok (), [QueueEffect.submit encoder.finish, QueueEffect.present])

/-- The primitives of a triangle-list topology: consecutive non-overlapping
triples of the index stream; a trailing remainder of fewer than three indices
forms no primitive. -/
def triangleListPrimitives : List Nat → List (Nat × Nat × Nat)
  | a :: b :: c :: rest => (a, b, c) :: triangleListPrimitives rest
  | _ => []

/-- Number of `submit` calls in a list of queue effects. -/
def submitCount (effects : List QueueEffect) : Nat :=
  (effects.filter fun e =>
    match e with
    | QueueEffect.submit _ => true
    | _ => false).length

/-- Whether a recorded command is a draw call (indexed or not). -/
def RenderCommand.isDrawCall : RenderCommand → Bool
  | RenderCommand.drawIndexed _ _ _ _ _ => true
  | RenderCommand.draw _ _ _ _ => true
  | _ => false

/-- Whether a recorded command is specifically an indexed draw. -/
def RenderCommand.isDrawIndexed : RenderCommand → Bool
  | RenderCommand.drawIndexed _ _ _ _ _ => true
  | _ => false

/-- Total number of draw calls across all submitted command buffers. -/
def drawCallCount (effects : List QueueEffect) : Nat :=
  (effects.map fun e =>
    match e with
    | QueueEffect.submit cb => (cb.filter RenderCommand.isDrawCall).length
    | _ => 0).sum

/-- Total number of indexed draw calls across all submitted command buffers. -/
def drawIndexedCount (effects : List QueueEffect) : Nat :=
  (effects.map fun e =>
    match e with
    | QueueEffect.submit cb => (cb.filter RenderCommand.isDrawIndexed).length
    | _ => 0).sum

/-- Observable effects of one pass through the event-loop closure. -/
inductive LoopEffect
  | requestRedraw
  | surface (e : SurfaceEffect)
  | queue (e : QueueEffect)
  | logError (e : SurfaceError)
deriving DecidableEq, Repr

/-- One invocation of the closure passed to `event_loop.run` in `main`.
`window_id` is the id of the one window; `acquire` is the externally
determined outcome of `surface.get_current_texture()` for the case where the
event triggers a render.  The closure first sets `control_flow` to `Wait`,
then dispatches on the event exactly as the source's `match` does, and the
result is the state, the final `control_flow`, and the effects issued. -/
def eventLoopStep (window_id : Nat) (s : State) (event : Event)
    (acquire : Except SurfaceError Unit) :
    State × ControlFlow × List LoopEffect :=
  let control_flow := ControlFlow.Wait
  match event with
  | Event.RedrawRequested _ =>
    let s := s.update
    let (s, result, queueEffects) := s.render acquire
    match result with
    | Except.ok _ =>
      (s, control_flow, queueEffects.map LoopEffect.queue)
    | Except.error SurfaceError.Lost =>
      let (s, surfaceEffects) := s.resize s.size
      (s, control_flow,
        queueEffects.map LoopEffect.queue ++ surfaceEffects.map LoopEffect.surface)
    | Except.error SurfaceError.OutOfMemory =>
      (s, ControlFlow.Exit, queueEffects.map LoopEffect.queue)
    | Except.error e =>
      (s, control_flow, queueEffects.map LoopEffect.queue ++ [LoopEffect.logError e])
  | Event.MainEventsCleared =>
    (s, control_flow, [LoopEffect.requestRedraw])
  | Event.WindowEvent wid we =>
    if wid = window_id then
      let (s, handled) := s.input we
      if !handled then
        match we with
        | WindowEvent.Resized physical_size =>
          let (s, surfaceEffects) := s.resize physical_size
          (s, control_flow, surfaceEffects.map LoopEffect.surface)
        | WindowEvent.ScaleFactorChanged _ new_inner_size =>
          let (s, surfaceEffects) := s.resize new_inner_size
          (s, control_flow, surfaceEffects.map LoopEffect.surface)
        | WindowEvent.CloseRequested =>
          (s, ControlFlow.Exit, [])
        | WindowEvent.KeyboardInput _ input _ =>
          match input.state, input.virtual_keycode with
          | ElementState.Pressed, some VirtualKeyCode.Escape =>
            (s, ControlFlow.Exit, [])
          | _, _ => (s, control_flow, [])
        | WindowEvent.otherWindowEvent => (s, control_flow, [])
      else
        (s, control_flow, [])
    else
      (s, control_flow, [])
  | Event.otherEvent => (s, control_flow, [])

/-- The invariant of claim C9: the stored window size agrees with the surface
configuration's dimensions. -/
def sizeMatchesConfig (s : State) : Prop :=
  s.size.width = s.config.width ∧ s.size.height = s.config.height

instance (s : State) : Decidable (sizeMatchesConfig s) := by
  unfold sizeMatchesConfig
  infer_instance

/-- C1: a `resize` call with `new_width = 0` or `new_height = 0` is a no-op:
the returned state is the input state unchanged (size, configuration and all
other fields), and no surface reconfiguration is attempted. -/
theorem resize_zero_is_noop (s : State) (new_size : PhysicalSize)
    (h : new_size.width = 0 ∨ new_size.height = 0) :
    s.resize new_size = (s, []) := by
  unfold State.resize
  rcases h with h | h <;> simp [h]

/-- Witness for C1 at a concrete state and the zero-width size (0, 600). -/
theorem resize_zero_is_noop_witness :
    ((PhysicalSize.mk 0 600).width = 0 ∨ (PhysicalSize.mk 0 600).height = 0) ∧
    (State.new ⟨800, 600⟩ 7 1 2 3 4).resize ⟨0, 600⟩
      = (State.new ⟨800, 600⟩ 7 1 2 3 4, []) :=
  ⟨Or.inl rfl,
   resize_zero_is_noop (State.new ⟨800, 600⟩ 7 1 2 3 4) ⟨0, 600⟩ (Or.inl rfl)⟩

/-- C2: the index buffer holds exactly 10 entries, the trailing padding entry
has value 0, the triangle-list primitives are exactly the three triangles
(0,1,4), (1,2,4), (2,3,4) built from the first 9 indices, and the trailing
tenth entry forms no primitive (the primitives of all 10 indices equal the
primitives of the first 9). -/
theorem indices_ten_entries_three_triangles :
    INDICES.length = 10 ∧
    INDICES.getLast? = some 0 ∧
    triangleListPrimitives INDICES = [(0, 1, 4), (1, 2, 4), (2, 3, 4)] ∧
    triangleListPrimitives INDICES = triangleListPrimitives (INDICES.take 9) := by
  decide

/-- C3: on a redraw whose render fails with `OutOfMemory` the loop step sets
`ControlFlow.Exit`; on `Lost` it calls `resize` with the current stored size
(issuing that resize's surface reconfiguration) and leaves the control flow
at `Wait`, continuing rather than terminating. -/
theorem loop_oom_exits_lost_resizes (window_id i : Nat) (s : State) :
    eventLoopStep window_id s (Event.RedrawRequested i)
        (Except.error SurfaceError.OutOfMemory)
      = (s, ControlFlow.Exit, []) ∧
    eventLoopStep window_id s (Event.RedrawRequested i)
        (Except.error SurfaceError.Lost)
      = ((s.resize s.size).1, ControlFlow.Wait,
          ((s.resize s.size).2).map LoopEffect.surface) :=
  ⟨rfl, rfl⟩

/-- C5: on a redraw whose render fails with `Outdated` or `Timeout`, the loop
step only logs the error: the state is unchanged, the control flow stays
`Wait` (no termination), and no resize or surface reconfiguration happens. -/
theorem loop_outdated_timeout_logs_and_continues (window_id i : Nat) (s : State) :
    eventLoopStep window_id s (Event.RedrawRequested i)
        (Except.error SurfaceError.Outdated)
      = (s, ControlFlow.Wait, [LoopEffect.logError SurfaceError.Outdated]) ∧
    eventLoopStep window_id s (Event.RedrawRequested i)
        (Except.error SurfaceError.Timeout)
      = (s, ControlFlow.Wait, [LoopEffect.logError SurfaceError.Timeout]) :=
  ⟨rfl, rfl⟩

/-- C4: a close-request event, or a pressed Escape key event with no
modifiers, makes the loop step set `ControlFlow.Exit` within that very
event-processing cycle. -/
theorem loop_close_or_escape_exits (window_id device_id scancode : Nat)
    (s : State) (acquire : Except SurfaceError Unit) (synthetic : Bool) :
    eventLoopStep window_id s
        (Event.WindowEvent window_id WindowEvent.CloseRequested) acquire
      = (s, ControlFlow.Exit, []) ∧
    eventLoopStep window_id s
        (Event.WindowEvent window_id
          (WindowEvent.KeyboardInput device_id
            { scancode := scancode
              state := ElementState.Pressed
              virtual_keycode := some VirtualKeyCode.Escape
              modifiers := ModifiersState.empty }
            synthetic)) acquire
      = (s, ControlFlow.Exit, []) := by
  constructor <;> simp [eventLoopStep, State.input]

/-- C6: a render invocation that acquires the surface texture issues exactly
one draw call (an indexed draw, and no other kind of draw) and submits
exactly one command buffer; an invocation whose acquisition fails issues no
draw call and submits no command buffer. -/
theorem render_one_draw_one_submit (s : State) (e : SurfaceError) :
    (drawCallCount (s.render (Except.ok ())).2.2 = 1 ∧
     drawIndexedCount (s.render (Except.ok ())).2.2 = 1 ∧
     submitCount (s.render (Except.ok ())).2.2 = 1) ∧
    (drawCallCount (s.render (Except.error e)).2.2 = 0 ∧
     submitCount (s.render (Except.error e)).2.2 = 0) :=
  ⟨⟨rfl, rfl, rfl⟩, rfl, rfl⟩

/-- C7: on success, render records a single render pass clearing to the color
(0.1, 0.2, 0.3, 1.0), sets the pipeline, the vertex buffer and the index
buffer, issues one indexed draw of `0..num_indices` with one instance, then
submits that one command buffer and presents. -/
theorem render_records_pass_and_presents (s : State) :
    s.render (Except.ok ()) =
      (s, Except.ok (),
        [ QueueEffect.submit
            [ RenderCommand.beginRenderPass
                { r := 0.1, g := 0.2, b := 0.3, a := 1.0 },
              RenderCommand.setPipeline s.render_pipeline,
              RenderCommand.setVertexBuffer 0 s.vertex_buffer,
              RenderCommand.setIndexBuffer s.index_buffer IndexFormat.Uint16,
              RenderCommand.drawIndexed 0 s.num_indices 0 0 1 ],
          QueueEffect.present ]) :=
  rfl

/-- C8: on `MainEventsCleared` the loop step requests another redraw (and
does nothing else), re-arming the redraw every cycle. -/
theorem loop_main_events_cleared_requests_redraw (window_id : Nat) (s : State)
    (acquire : Except SurfaceError Unit) :
    eventLoopStep window_id s Event.MainEventsCleared acquire
      = (s, ControlFlow.Wait, [LoopEffect.requestRedraw]) :=
  rfl

/-- C9: the stored size always equals the configuration's dimensions: it
holds of any freshly constructed state, and each of `resize`, `input`,
`update` and `render` preserves it. -/
theorem size_matches_config_invariant (size : PhysicalSize)
    (fmt sh dh qh ph : Nat) (s : State) (new_size : PhysicalSize)
    (we : WindowEvent) (acquire : Except SurfaceError Unit)
    (h : sizeMatchesConfig s) :
    sizeMatchesConfig (State.new size fmt sh dh qh ph) ∧
    sizeMatchesConfig (s.resize new_size).1 ∧
    sizeMatchesConfig (s.input we).1 ∧
    sizeMatchesConfig s.update ∧
    sizeMatchesConfig (s.render acquire).1 := by
  refine ⟨⟨rfl, rfl⟩, ?_, h, h, ?_⟩
  · unfold State.resize
    split
    · exact ⟨rfl, rfl⟩
    · exact h
  · cases acquire <;> exact h

/-- Witness for C9 at concrete states, a concrete resize target, a concrete
window event and a successful acquisition. -/
theorem size_matches_config_invariant_witness :
    sizeMatchesConfig (State.new ⟨640, 480⟩ 7 1 2 3 4) ∧
    (sizeMatchesConfig (State.new ⟨800, 600⟩ 7 1 2 3 4) ∧
     sizeMatchesConfig ((State.new ⟨640, 480⟩ 7 1 2 3 4).resize ⟨1024, 768⟩).1 ∧
     sizeMatchesConfig ((State.new ⟨640, 480⟩ 7 1 2 3 4).input
        WindowEvent.CloseRequested).1 ∧
     sizeMatchesConfig (State.new ⟨640, 480⟩ 7 1 2 3 4).update ∧
     sizeMatchesConfig ((State.new ⟨640, 480⟩ 7 1 2 3 4).render (Except.ok ())).1) :=
  ⟨by decide,
   size_matches_config_invariant ⟨800, 600⟩ 7 1 2 3 4
     (State.new ⟨640, 480⟩ 7 1 2 3 4) ⟨1024, 768⟩ WindowEvent.CloseRequested
     (Except.ok ()) (by decide)⟩

/-- C10: a resize with both dimensions strictly positive changes only the
stored size and the configuration's width and height (to the new values);
the configuration's format, present mode and usage, and the surface, device,
queue, pipeline, buffers and index count are unchanged. -/
theorem resize_positive_updates_only_dims (s : State) (new_size : PhysicalSize)
    (hw : 0 < new_size.width) (hh : 0 < new_size.height) :
    ((s.resize new_size).1.size = new_size ∧
     (s.resize new_size).1.config.width = new_size.width ∧
     (s.resize new_size).1.config.height = new_size.height) ∧
    ((s.resize new_size).1.config.format = s.config.format ∧
     (s.resize new_size).1.config.present_mode = s.config.present_mode ∧
     (s.resize new_size).1.config.usage = s.config.usage ∧
     (s.resize new_size).1.surface = s.surface ∧
     (s.resize new_size).1.device = s.device ∧
     (s.resize new_size).1.queue = s.queue ∧
     (s.resize new_size).1.render_pipeline = s.render_pipeline ∧
     (s.resize new_size).1.vertex_buffer = s.vertex_buffer ∧
     (s.resize new_size).1.index_buffer = s.index_buffer ∧
     (s.resize new_size).1.num_indices = s.num_indices) := by
  unfold State.resize
  simp [hw, hh]

/-- Witness for C10 at a concrete state and the positive size (1024, 768). -/
theorem resize_positive_updates_only_dims_witness :
    0 < (PhysicalSize.mk 1024 768).width ∧ 0 < (PhysicalSize.mk 1024 768).height ∧
    (((State.new ⟨800, 600⟩ 7 1 2 3 4).resize ⟨1024, 768⟩).1.size = ⟨1024, 768⟩ ∧
     ((State.new ⟨800, 600⟩ 7 1 2 3 4).resize ⟨1024, 768⟩).1.config.width = 1024 ∧
     ((State.new ⟨800, 600⟩ 7 1 2 3 4).resize ⟨1024, 768⟩).1.config.height = 768) :=
  ⟨by decide, by decide,
   ((resize_positive_updates_only_dims (State.new ⟨800, 600⟩ 7 1 2 3 4)
      ⟨1024, 768⟩ (by decide) (by decide)).1)⟩

end GrokWgpu
